import Mathlib

/-!
Verification of the motorcycle-accident dashboard (src/app.py) against its
natural-language specification.

The Python source operates on a pandas dataframe; we shallow-embed it as a
list of records.  Each dataframe column becomes a structure field; a column
produced by `pd.to_numeric(..., errors='coerce')` or `pd.to_datetime(...,
errors='coerce')` is modelled as an `Option` field of the raw record (the
field either parses to a value or it does not), and a nullable categorical
column is an `Option String`.  Numeric time and age columns hold integers in
the dataset, so their parsed values are `Int`; latitude and longitude are
modelled as `Rat`.  Every per-row dataframe operation of
`analyze_motorcycle_data` (filter, column assignment, dropna) acts row-wise,
so the whole pipeline is the `List.filterMap` of a per-record function
`deriveRecord`.
-/

/-- A parsed calendar date `(y, m, d)`, as produced by
`pd.to_datetime(..., errors='coerce')` when the raw date string parses. -/
structure CivilDate where
  y : Nat
  m : Nat
  d : Nat
deriving Repr, DecidableEq

/-- Gregorian leap-year test. -/
def isLeap (y : Nat) : Bool :=
  (y % 4 == 0 && y % 100 != 0) || y % 400 == 0

/-- Number of days in month `m` of year `y`. -/
def daysInMonth (y m : Nat) : Nat :=
  if m == 2 then (if isLeap y then 29 else 28)
  else if m == 4 || m == 6 || m == 9 || m == 11 then 30
  else 31

/-- Validity of a parsed date: `pd.to_datetime(..., errors='coerce')` only
yields a timestamp for a real calendar date; anything else becomes NaT and
the row is dropped. -/
def CivilDate.valid (dt : CivilDate) : Bool :=
  1 ≤ dt.y && 1 ≤ dt.m && dt.m ≤ 12 && 1 ≤ dt.d && dt.d ≤ daysInMonth dt.y dt.m

/-- Days elapsed since 0000-03-01 in the proleptic Gregorian calendar
(standard civil-from-days construction), used to obtain the day of week. -/
def daysFromCivil (y m d : Nat) : Nat :=
  let yAdj := if m ≤ 2 then y - 1 else y
  let era := yAdj / 400
  let yoe := yAdj % 400
  let mp := (m + 9) % 12
  let doy := (153 * mp + 2) / 5 + d - 1
  let doe := yoe * 365 + yoe / 4 - yoe / 100 + doy
  era * 146097 + doe

/-- Day of week with Monday = 0 .. Sunday = 6, matching pandas
`Series.dt.dayofweek`. -/
def dayOfWeekMon0 (y m d : Nat) : Nat :=
  (daysFromCivil y m d + 2) % 7

/-- One raw record of the accident dataset (one dataframe row), holding the
columns that `analyze_motorcycle_data` reads.  Field names transliterate the
Chinese column names of src/app.py, which are not legal Lean identifiers. -/
structure RawRecord where
  /-- Column 當事者區分-類別-大類別名稱-車種, after `.astype(str)` (total). -/
  vehicleCategory : String
  /-- Column 發生時間 under `pd.to_numeric(..., errors='coerce')`:
  `some t` when numeric, `none` when the coercion yields NaN. -/
  occurTime : Option Int
  /-- Column 發生日期 under `pd.to_datetime(..., errors='coerce')`:
  `some dt` when the date parses, `none` when it becomes NaT. -/
  occurDate : Option CivilDate
  /-- Column 當事者事故發生時年齡 under `pd.to_numeric`: `some a` when
  numeric, `none` otherwise. -/
  partyAge : Option Int
  /-- Column 肇因研判子類別名稱-主要 (nullable). -/
  causeMain : Option String
  /-- Column 天候名稱 (nullable). -/
  weatherName : Option String
  /-- Column 道路型態大類別名稱 (nullable). -/
  roadTypeName : Option String
  /-- Column 當事者屬-性-別名稱 (nullable). -/
  genderName : Option String
  /-- Column 處理單位名稱警局層 (nullable). -/
  cityBureau : Option String
  /-- Column 發生地點 (nullable); this column is overwritten in place by the
  pipeline's fillna. -/
  location : Option String
  /-- Column 號誌-號誌種類名稱 (nullable). -/
  signalName : Option String
  /-- Column 保護裝備名稱 (nullable). -/
  helmetName : Option String
  /-- Column 事故類型及型態子類別名稱 (nullable). -/
  accTypeMinor : Option String
  /-- Column 事故類型及型態大類別名稱 (nullable). -/
  accTypeMajor : Option String
  /-- Column 緯度 under `pd.to_numeric`: `some` when numeric. -/
  latRaw : Option Rat
  /-- Column 經度 under `pd.to_numeric`: `some` when numeric. -/
  lonRaw : Option Rat
deriving Repr, DecidableEq

/-- A cleaned record: the raw row (with 發生地點 already filled, as the
pipeline overwrites that column in place) together with every derived column
added by `analyze_motorcycle_data`. -/
structure CleanedRecord where
  /-- All original columns, carried along by the dataframe (發生地點 filled). -/
  raw : RawRecord
  /-- Derived column 發生小時. -/
  hour : Int
  /-- Derived column 發生月份. -/
  month : Nat
  /-- Derived column 發生星期 (1 = Monday .. 7 = Sunday). -/
  weekday : Nat
  /-- Derived column 時段 (週末/平日). -/
  period : String
  /-- Derived column 年齡 (numeric age). -/
  age : Int
  /-- Derived column 年齡層: `pd.cut` yields NaN outside every bin, hence an
  `Option`. -/
  ageBand : Option String
  /-- Derived column 肇因. -/
  cause : String
  /-- Derived column 天候. -/
  weather : String
  /-- Derived column 道路類型. -/
  roadType : String
  /-- Derived column 性別. -/
  gender : String
  /-- Derived column 縣市. -/
  city : String
  /-- Derived column 號誌種類. -/
  signal : String
  /-- Derived column 安全帽. -/
  helmet : String
  /-- Derived column 事故型態(子類別). -/
  accMinor : String
  /-- Derived column 事故型態(大類別). -/
  accMajor : String
  /-- Derived column lat (numeric, non-null after dropna). -/
  lat : Rat
  /-- Derived column lon (numeric, non-null after dropna). -/
  lon : Rat
deriving Repr, DecidableEq

/-- The seven fixed age-band labels of src/app.py line 49. -/
def ageLabels : List String :=
  ["0-17歲", "18-24歲", "25-34歲", "35-44歲", "45-54歲", "55-64歲", "65+歲"]

/-- `pd.cut(age, bins=[0,17,24,34,44,54,64,99], labels=ageLabels, right=True)`
on an integral age: the bins are the right-closed intervals (0,17], (17,24],
(24,34], (34,44], (44,54], (54,64], (64,99]; a value in no bin (in
particular 0) gets NaN, i.e. `none`. -/
def ageBandOf (a : Int) : Option String :=
  if 0 < a ∧ a ≤ 17 then some "0-17歲"
  else if 17 < a ∧ a ≤ 24 then some "18-24歲"
  else if 24 < a ∧ a ≤ 34 then some "25-34歲"
  else if 34 < a ∧ a ≤ 44 then some "35-44歲"
  else if 44 < a ∧ a ≤ 54 then some "45-54歲"
  else if 54 < a ∧ a ≤ 64 then some "55-64歲"
  else if 64 < a ∧ a ≤ 99 then some "65+歲"
  else none

/-- Substring containment, modelling pandas `.str.contains(pat, na=False)`
with a plain (non-regex-meaningful) pattern. -/
def strContains (s pat : String) : Bool :=
  decide (pat.toList <:+: s.toList)

/-- The two non-informative cause labels excluded at src/app.py lines 54-56. -/
def excludedCauses : List String :=
  ["無(非車輛駕駛人因素)", "尚未發現肇事因素"]

/-- The per-row content of `analyze_motorcycle_data` (src/app.py lines
28-73): every filter and column assignment in the body acts row-wise, so the
pipeline is `deriveRecord` applied to each row, dropping rows that return
`none`.  The steps appear in source order: vehicle-category filter (line 30),
time coercion and drop (33-35), date parse and drop plus month / weekday /
period (37-43), age coercion, range filter and banding (46-50), cause fill
and exclusion (53-56), categorical default fills (58-66), coordinate
coercion and drop (69-71). -/
def deriveRecord (r : RawRecord) : Option CleanedRecord :=
  if strContains r.vehicleCategory "機車" then
    match r.occurTime with
    | none => none
    | some t =>
      let hour := Int.fdiv t 10000
      match r.occurDate with
      | none => none
      | some dt =>
        if dt.valid then
          let weekday := dayOfWeekMon0 dt.y dt.m dt.d + 1
          let period := if weekday ≥ 6 then "週末 (六/日)" else "平日 (一至五)"
          match r.partyAge with
          | none => none
          | some a =>
            if 0 ≤ a ∧ a ≤ 99 then
              let cause := r.causeMain.getD "未知"
              if cause ∈ excludedCauses then none
              else
                match r.latRaw, r.lonRaw with
                | some la, some lo =>
                  some {
                    raw := { r with location := some (r.location.getD "未知") }
                    hour := hour
                    month := dt.m
                    weekday := weekday
                    period := period
                    age := a
                    ageBand := ageBandOf a
                    cause := cause
                    weather := r.weatherName.getD "其他"
                    roadType := r.roadTypeName.getD "其他"
                    gender := r.genderName.getD "未知"
                    city := r.cityBureau.getD "未知"
                    signal := r.signalName.getD "未知"
                    helmet := r.helmetName.getD "未知或無"
                    accMinor := r.accTypeMinor.getD "未知"
                    accMajor := r.accTypeMajor.getD "未知"
                    lat := la
                    lon := lo
                  }
                | _, _ => none
            else none
        else none
  else none

/-- The Feature Pipeline `analyze_motorcycle_data` over a whole table. -/
def analyze_motorcycle_data (df : List RawRecord) : List CleanedRecord :=
  df.filterMap deriveRecord

/-- Re-interpreting a cleaned dataframe row as input to the pipeline: the
cleaned dataframe still carries every original column (with 發生地點
filled in place), which is exactly `CleanedRecord.raw`. -/
def cleanedToRaw (c : CleanedRecord) : RawRecord :=
  c.raw

/-- The Filter/Query Layer (src/app.py lines 98-104): restrict the cleaned
table to the selected cities, the inclusive month range, the selected
weather values, and — unless the period selector is 全部 — the selected
period. -/
def filtered_data (t : List CleanedRecord) (cities : List String)
    (mlo mhi : Nat) (weathers : List String) (selPeriod : String) :
    List CleanedRecord :=
  let base := t.filter (fun c =>
    cities.contains c.city && (mlo ≤ c.month && c.month ≤ mhi)
      && weathers.contains c.weather)
  if selPeriod == "全部" then base
  else base.filter (fun c => c.period == selPeriod)

/-- `sorted(df['縣市'].unique())` — the set of distinct city values; for the
membership tests of the filter only the underlying set matters, so we model
it as the deduplicated list of values. -/
def allCities (t : List CleanedRecord) : List String :=
  (t.map (·.city)).dedup

/-- `sorted(df['天候'].unique())` — the set of distinct weather values. -/
def allWeathers (t : List CleanedRecord) : List String :=
  (t.map (·.weather)).dedup

/-- `groupby('發生月份').size()` on a cleaned table: the months present, in
ascending order, each with its row count (cleaned months lie in 1..12). -/
def monthly_accidents (t : List CleanedRecord) : List (Nat × Nat) :=
  (List.range 12).filterMap (fun i =>
    let m := i + 1
    let n := (t.filter (fun c => c.month == m)).length
    if n == 0 then none else some (m, n))

/-- `groupby('發生小時').size()` on a cleaned table (hours of cleaned rows
are bounded by the data; we enumerate 0..23 as the chart does). -/
def hourly_accidents (t : List CleanedRecord) : List (Int × Nat) :=
  (List.range 24).filterMap (fun h =>
    let n := (t.filter (fun c => c.hour == (h : Int))).length
    if n == 0 then none else some ((h : Int), n))

/-- What the session renders after the filter layer: src/app.py lines
105-107 stop with a user-visible warning when the filtered table is empty,
so no aggregate is computed and no chart is built; otherwise the tabs build
their aggregates from the filtered table. -/
inductive RenderOutcome where
  /-- The 找不到任何資料 warning followed by `st.stop()`. -/
  | noData : RenderOutcome
  /-- The charts actually rendered, carrying the computed aggregates. -/
  | charts (monthly : List (Nat × Nat)) (hourly : List (Int × Nat)) :
      RenderOutcome
deriving Repr, DecidableEq

/-- The empty-result guard and the downstream aggregation, as one function
of the filtered table. -/
def sessionView (filtered : List CleanedRecord) : RenderOutcome :=
  if filtered.isEmpty then .noData
  else .charts (monthly_accidents filtered) (hourly_accidents filtered)

/-- The map-view row selection (src/app.py lines 149-153): when the filtered
table has more rows than the slider value, take a random sample of exactly
that many rows, else take the whole table; then project to (lat, lon).  The
random draw of `DataFrame.sample(n)` is modelled by an arbitrary sampler
`shuffle` that permutes the table (the `Perm` hypothesis in the theorems),
of which the first `n` rows are kept — a draw without replacement. -/
def map_data (filtered : List CleanedRecord) (sampleSize : Nat)
    (shuffle : List CleanedRecord → List CleanedRecord) : List (Rat × Rat) :=
  if filtered.length > sampleSize then
    ((shuffle filtered).take sampleSize).map (fun c => (c.lat, c.lon))
  else
    filtered.map (fun c => (c.lat, c.lon))

/-! ## Concrete records used by the examples and counterexamples -/

/-- The spec's worked example: occurrence time 1430, date 2024-03-15, age
30, missing cause, vehicle category containing 機車 (with concrete valid
coordinates so the row survives the coordinate drop). -/
def rHHMM : RawRecord :=
  { vehicleCategory := "機車"
    occurTime := some 1430
    occurDate := some ⟨2024, 3, 15⟩
    partyAge := some 30
    causeMain := none
    weatherName := some "晴"
    roadTypeName := none
    genderName := none
    cityBureau := some "臺北市政府警察局"
    location := none
    signalName := none
    helmetName := none
    accTypeMinor := none
    accTypeMajor := none
    latRaw := some 25
    lonRaw := some 121 }

/-- The cleaned record the pipeline produces from `rHHMM`. -/
def cHHMM : CleanedRecord :=
  { raw := { rHHMM with location := some "未知" }
    hour := 0
    month := 3
    weekday := 5
    period := "平日 (一至五)"
    age := 30
    ageBand := some "25-34歲"
    cause := "未知"
    weather := "晴"
    roadType := "其他"
    gender := "未知"
    city := "臺北市政府警察局"
    signal := "未知"
    helmet := "未知或無"
    accMinor := "未知"
    accMajor := "未知"
    lat := 25
    lon := 121 }

/-- `rHHMM` with a six-digit numeric occurrence time. -/
def rBigTime : RawRecord := { rHHMM with occurTime := some 999999 }

/-- `rHHMM` with numeric age exactly 0. -/
def rAge0 : RawRecord := { rHHMM with partyAge := some 0 }

/-- `rHHMM` with a missing (non-numeric) age field. -/
def rNoAge : RawRecord := { rHHMM with partyAge := none }

/-! ## Inversion of the per-record pipeline -/

/-- Inversion lemma: everything that must have held of the raw record when
`deriveRecord` keeps it, and the value of every field of the cleaned
record. -/
lemma deriveRecord_some_elim {r : RawRecord} {c : CleanedRecord}
    (h : deriveRecord r = some c) :
    ∃ t dt,
      strContains r.vehicleCategory "機車" = true ∧
      r.occurTime = some t ∧ r.occurDate = some dt ∧ dt.valid = true ∧
      r.partyAge = some c.age ∧ 0 ≤ c.age ∧ c.age ≤ 99 ∧
      c.cause ∉ excludedCauses ∧
      r.latRaw = some c.lat ∧ r.lonRaw = some c.lon ∧
      c.raw = { r with location := some (r.location.getD "未知") } ∧
      c.hour = Int.fdiv t 10000 ∧
      c.month = dt.m ∧
      c.weekday = dayOfWeekMon0 dt.y dt.m dt.d + 1 ∧
      ((c.weekday ≥ 6 ∧ c.period = "週末 (六/日)") ∨
        (c.weekday < 6 ∧ c.period = "平日 (一至五)")) ∧
      c.ageBand = ageBandOf c.age ∧
      c.cause = r.causeMain.getD "未知" ∧
      c.weather = r.weatherName.getD "其他" ∧
      c.roadType = r.roadTypeName.getD "其他" ∧
      c.gender = r.genderName.getD "未知" ∧
      c.city = r.cityBureau.getD "未知" ∧
      c.signal = r.signalName.getD "未知" ∧
      c.helmet = r.helmetName.getD "未知或無" ∧
      c.accMinor = r.accTypeMinor.getD "未知" ∧
      c.accMajor = r.accTypeMajor.getD "未知" := by
  by_cases hv : strContains r.vehicleCategory "機車" = true
  case neg => simp [deriveRecord, hv] at h
  cases ht : r.occurTime with
  | none => simp [deriveRecord, hv, ht] at h
  | some t =>
    cases hd : r.occurDate with
    | none => simp [deriveRecord, hv, ht, hd] at h
    | some dt =>
      by_cases hdv : dt.valid = true
      case neg => simp [deriveRecord, hv, ht, hd, hdv] at h
      cases ha : r.partyAge with
      | none => simp [deriveRecord, hv, ht, hd, hdv, ha] at h
      | some a =>
        by_cases har : 0 ≤ a ∧ a ≤ 99
        case neg => simp [deriveRecord, hv, ht, hd, hdv, ha, har] at h
        by_cases hc : r.causeMain.getD "未知" ∈ excludedCauses
        case pos => simp [deriveRecord, hv, ht, hd, hdv, ha, har, hc] at h
        cases hla : r.latRaw with
        | none => simp [deriveRecord, hv, ht, hd, hdv, ha, har, hc, hla] at h
        | some la =>
          cases hlo : r.lonRaw with
          | none =>
            simp [deriveRecord, hv, ht, hd, hdv, ha, har, hc, hla, hlo] at h
          | some lo =>
            simp [deriveRecord, hv, ht, hd, hdv, ha, har, hc, hla, hlo] at h
            subst h
            refine ⟨t, dt, hv, rfl, rfl, hdv, rfl, har.1, har.2, hc, rfl,
              rfl, rfl, rfl, rfl, rfl, ?_, rfl, rfl, rfl, rfl, rfl, rfl,
              rfl, rfl, rfl, rfl⟩
            by_cases h6 : 5 ≤ dayOfWeekMon0 dt.y dt.m dt.d
            · left
              constructor
              · show 6 ≤ dayOfWeekMon0 dt.y dt.m dt.d + 1
                omega
              · show (if 5 ≤ dayOfWeekMon0 dt.y dt.m dt.d then
                    "週末 (六/日)" else "平日 (一至五)") = "週末 (六/日)"
                rw [if_pos h6]
            · right
              constructor
              · show dayOfWeekMon0 dt.y dt.m dt.d + 1 < 6
                omega
              · show (if 5 ≤ dayOfWeekMon0 dt.y dt.m dt.d then
                    "週末 (六/日)" else "平日 (一至五)") = "平日 (一至五)"
                rw [if_neg h6]

/-- A row whose occurrence time is non-numeric (NaN after coercion) is
dropped by the pipeline, whatever its other fields. -/
lemma deriveRecord_none_of_time_none {r : RawRecord}
    (h : r.occurTime = none) : deriveRecord r = none := by
  by_cases hv : strContains r.vehicleCategory "機車" = true
  · simp [deriveRecord, hv, h]
  · simp [deriveRecord, hv]

/-- A row whose party age is non-numeric (NaN after coercion) is dropped by
the pipeline, whatever its other fields. -/
lemma deriveRecord_none_of_age_none {r : RawRecord}
    (h : r.partyAge = none) : deriveRecord r = none := by
  by_cases hv : strContains r.vehicleCategory "機車" = true
  · cases ht : r.occurTime with
    | none => simp [deriveRecord, hv, ht]
    | some t =>
      cases hd : r.occurDate with
      | none => simp [deriveRecord, hv, ht, hd]
      | some dt => simp [deriveRecord, hv, ht, hd, h]
  · simp [deriveRecord, hv]

/-- A valid parsed date has its month in 1..12. -/
lemma CivilDate.month_bounds {dt : CivilDate} (h : dt.valid = true) :
    1 ≤ dt.m ∧ dt.m ≤ 12 := by
  unfold CivilDate.valid at h
  simp only [Bool.and_eq_true, decide_eq_true_eq] at h
  exact ⟨h.1.1.1.2, h.1.1.2⟩

/-- The seven age bins as right-inclusive integer intervals
`(lower, upper, label)`, as the spec lists them, except that the first
interval starts at 1 because the code's `pd.cut` bin (0,17] excludes 0. -/
def ageBins : List (Int × Int × String) :=
  [(1, 17, "0-17歲"), (18, 24, "18-24歲"), (25, 34, "25-34歲"),
   (35, 44, "35-44歲"), (45, 54, "45-54歲"), (55, 64, "55-64歲"),
   (65, 99, "65+歲")]

/-- Every age in 1..99 falls in exactly the bin whose label `ageBandOf`
assigns, and that label is one of the seven fixed labels. -/
lemma ageBandOf_mem (a : Int) (h1 : 0 < a) (h99 : a ≤ 99) :
    ∃ b ∈ ageBins, ageBandOf a = some b.2.2 ∧ b.1 ≤ a ∧ a ≤ b.2.1 ∧
      b.2.2 ∈ ageLabels := by
  interval_cases a <;> decide

/-- Re-running the per-record pipeline on a cleaned row (all original
columns, with 發生地點 already filled) reproduces that row exactly. -/
lemma deriveRecord_idem {r : RawRecord} {c : CleanedRecord}
    (h : deriveRecord r = some c) : deriveRecord c.raw = some c := by
  by_cases hv : strContains r.vehicleCategory "機車" = true
  case neg => simp [deriveRecord, hv] at h
  cases ht : r.occurTime with
  | none => simp [deriveRecord, hv, ht] at h
  | some t =>
    cases hd : r.occurDate with
    | none => simp [deriveRecord, hv, ht, hd] at h
    | some dt =>
      by_cases hdv : dt.valid = true
      case neg => simp [deriveRecord, hv, ht, hd, hdv] at h
      cases ha : r.partyAge with
      | none => simp [deriveRecord, hv, ht, hd, hdv, ha] at h
      | some a =>
        by_cases har : 0 ≤ a ∧ a ≤ 99
        case neg => simp [deriveRecord, hv, ht, hd, hdv, ha, har] at h
        by_cases hc : r.causeMain.getD "未知" ∈ excludedCauses
        case pos => simp [deriveRecord, hv, ht, hd, hdv, ha, har, hc] at h
        cases hla : r.latRaw with
        | none => simp [deriveRecord, hv, ht, hd, hdv, ha, har, hc, hla] at h
        | some la =>
          cases hlo : r.lonRaw with
          | none =>
            simp [deriveRecord, hv, ht, hd, hdv, ha, har, hc, hla, hlo] at h
          | some lo =>
            simp [deriveRecord, hv, ht, hd, hdv, ha, har, hc, hla, hlo] at h
            subst h
            simp [deriveRecord, hv, hdv, har, hc]

/-- Idempotence of the Feature Pipeline at table level. -/
lemma analyze_idem (df : List RawRecord) :
    analyze_motorcycle_data
        (List.map cleanedToRaw (analyze_motorcycle_data df))
      = analyze_motorcycle_data df := by
  induction df with
  | nil => rfl
  | cons r tl ih =>
    cases hr : deriveRecord r with
    | none =>
      simpa [analyze_motorcycle_data, List.filterMap_cons, hr] using ih
    | some c =>
      have hc : deriveRecord (cleanedToRaw c) = some c := deriveRecord_idem hr
      simp only [analyze_motorcycle_data, List.filterMap_cons, hr,
        List.map_cons, hc] at ih ⊢
      exact congrArg (c :: ·) ih

/-- `rHHMM` with a missing (non-numeric) occurrence time. -/
def rNoTime : RawRecord := { rHHMM with occurTime := none }

/-! ## Claims -/

/-- C1 (counterexample): the claim says hour is the occurrence time divided
by 100 and always lies in 0-23.  On the record with numeric time 1430 the
pipeline derives hour 0, not 1430 / 100 = 14; and on a record with numeric
time 999999 it derives hour 99, outside 0-23. -/
theorem C1_counterexample :
    ((analyze_motorcycle_data [rHHMM]).map (fun c => c.hour) = [0] ∧
      ¬ ((0 : Int) = 1430 / 100)) ∧
    ((analyze_motorcycle_data [rBigTime]).map (fun c => c.hour) = [99] ∧
      ¬ ((99 : Int) ≤ 23)) := by
  decide

/-- C1 (amended): rows with non-numeric occurrence time are excluded from
the cleaned table, and for every retained row the derived hour is the floor
division of the numeric occurrence time by 10000 (the time field is
HHMMSS); the hour lies in 0-23 whenever the numeric time lies in
[0, 235959]. -/
theorem C1_hour_division :
    (∀ r : RawRecord, r.occurTime = none → deriveRecord r = none) ∧
    (∀ (r : RawRecord) (c : CleanedRecord), deriveRecord r = some c →
      ∃ t, r.occurTime = some t ∧ c.hour = Int.fdiv t 10000 ∧
        (0 ≤ t → t ≤ 235959 → 0 ≤ c.hour ∧ c.hour ≤ 23)) := by
  constructor
  · exact fun r h => deriveRecord_none_of_time_none h
  · intro r c h
    obtain ⟨t, dt, hv, ht, hd, hdv, ha, h0, h99, hcex, hla, hlo, hraw,
      hhour, hmonth, hwk, hper, hband, hcause, hweather, hroad, hgender,
      hcity, hsignal, hhelmet, hminor, hmajor⟩ := deriveRecord_some_elim h
    refine ⟨t, ht, hhour, fun ht0 ht1 => ?_⟩
    rw [hhour, Int.fdiv_eq_ediv _ (by norm_num)]
    constructor
    · exact Int.ediv_nonneg ht0 (by norm_num)
    · calc t / 10000 ≤ 235959 / 10000 := Int.ediv_le_ediv (by norm_num) ht1
        _ = 23 := by decide

/-- C1 (witness): the amended statement instantiated at a record without a
numeric time and at the concrete record `rHHMM`. -/
theorem C1_witness :
    deriveRecord rNoTime = none ∧
    (∃ t, rHHMM.occurTime = some t ∧ cHHMM.hour = Int.fdiv t 10000 ∧
      (0 ≤ t → t ≤ 235959 → 0 ≤ cHHMM.hour ∧ cHHMM.hour ≤ 23)) :=
  ⟨C1_hour_division.1 rNoTime rfl,
    C1_hour_division.2 rHHMM cHHMM (by decide)⟩

/-- C2 (counterexample): on the spec's example record (time 1430, date
2024-03-15, age 30, missing cause, category 機車) the pipeline retains the
row but derives hour 0, not the claimed hour 14. -/
theorem C2_counterexample :
    (analyze_motorcycle_data [rHHMM]).map
        (fun c => ((c.hour, c.month, c.weekday), (c.period, c.ageBand, c.cause)))
      = [(((0 : Int), 3, 5), ("平日 (一至五)", some "25-34歲", "未知"))] ∧
    ¬ ((analyze_motorcycle_data [rHHMM]).map (fun c => c.hour) = [14]) := by
  decide

/-- C2 (amended): the example record is retained and its cleaned row has
hour = 0 (not 14), month = 3, weekday = 5, period = 平日, age band
25-34歲, and cause 未知. -/
theorem C2_example_row :
    analyze_motorcycle_data [rHHMM] = [cHHMM] ∧
    cHHMM.hour = 0 ∧ cHHMM.month = 3 ∧ cHHMM.weekday = 5 ∧
    cHHMM.period = "平日 (一至五)" ∧ cHHMM.ageBand = some "25-34歲" ∧
    cHHMM.cause = "未知" := by
  decide

/-- C3 (counterexample): a retained record with age exactly 0 has no age
band at all, so the age band of a cleaned record is not always one of the 7
labels. -/
theorem C3_counterexample :
    ¬ (∀ c ∈ analyze_motorcycle_data [rAge0],
        ∃ l ∈ ageLabels, c.ageBand = some l) := by
  decide

/-- C3 (amended): for every cleaned record with positive age, the age band
is exactly the label of the right-inclusive bin containing the age, and
that label is one of the 7 fixed labels; a cleaned record with age 0 has a
null age band (the first bin (0,17] excludes its left endpoint). -/
theorem C3_age_band_bins :
    ∀ (r : RawRecord) (c : CleanedRecord), deriveRecord r = some c →
      (c.age = 0 → c.ageBand = none) ∧
      (0 < c.age → ∃ b ∈ ageBins, c.ageBand = some b.2.2 ∧
        b.1 ≤ c.age ∧ c.age ≤ b.2.1 ∧ b.2.2 ∈ ageLabels) := by
  intro r c h
  obtain ⟨t, dt, hv, ht, hd, hdv, ha, h0, h99, hcex, hla, hlo, hraw,
    hhour, hmonth, hwk, hper, hband, hcause, hweather, hroad, hgender,
    hcity, hsignal, hhelmet, hminor, hmajor⟩ := deriveRecord_some_elim h
  constructor
  · intro hz
    rw [hband, hz]
    decide
  · intro hpos
    rw [hband]
    exact ageBandOf_mem c.age hpos h99

/-- C3 (witness): the amended statement instantiated at the concrete record
`rHHMM`, whose cleaned age 30 falls in the bin (24,34] labelled 25-34歲. -/
theorem C3_witness :
    ∃ b ∈ ageBins, cHHMM.ageBand = some b.2.2 ∧
      b.1 ≤ cHHMM.age ∧ cHHMM.age ≤ b.2.1 ∧ b.2.2 ∈ ageLabels :=
  (C3_age_band_bins rHHMM cHHMM (by decide)).2 (by decide)

/-- C4: every cleaned record's weekday lies in 1..7, and its period is the
weekend label exactly when the weekday is 6 or 7, and the weekday label
otherwise. -/
theorem C4_weekday_period :
    ∀ (r : RawRecord) (c : CleanedRecord), deriveRecord r = some c →
      (1 ≤ c.weekday ∧ c.weekday ≤ 7) ∧
      (c.period = "週末 (六/日)" ↔ (c.weekday = 6 ∨ c.weekday = 7)) ∧
      (c.period = "平日 (一至五)" ↔ ¬(c.weekday = 6 ∨ c.weekday = 7)) := by
  intro r c h
  obtain ⟨t, dt, hv, ht, hd, hdv, ha, h0, h99, hcex, hla, hlo, hraw,
    hhour, hmonth, hwk, hper, hband, hcause, hweather, hroad, hgender,
    hcity, hsignal, hhelmet, hminor, hmajor⟩ := deriveRecord_some_elim h
  have hdow : dayOfWeekMon0 dt.y dt.m dt.d < 7 := Nat.mod_lt _ (by norm_num)
  have hb : 1 ≤ c.weekday ∧ c.weekday ≤ 7 := by omega
  refine ⟨hb, ?_, ?_⟩
  · rcases hper with ⟨hge, hpe⟩ | ⟨hlt, hpe⟩
    · exact iff_of_true hpe (by omega)
    · refine iff_of_false (by simp [hpe]) (by omega)
  · rcases hper with ⟨hge, hpe⟩ | ⟨hlt, hpe⟩
    · refine iff_of_false (by simp [hpe]) (by omega)
    · exact iff_of_true hpe (by omega)

/-- C4 (witness): the statement instantiated at the concrete record
`rHHMM`, whose cleaned weekday is 5 (Friday) with the weekday-period
label. -/
theorem C4_witness :
    (1 ≤ cHHMM.weekday ∧ cHHMM.weekday ≤ 7) ∧
    (cHHMM.period = "週末 (六/日)" ↔ (cHHMM.weekday = 6 ∨ cHHMM.weekday = 7)) ∧
    (cHHMM.period = "平日 (一至五)" ↔
      ¬(cHHMM.weekday = 6 ∨ cHHMM.weekday = 7)) :=
  C4_weekday_period rHHMM cHHMM (by decide)

/-- C5: filtering the cleaned table by the set of all its distinct cities,
the full month range (1,12), the set of all its distinct weather values,
and the 全部 (any) period selection reproduces the cleaned table
unchanged. -/
theorem C5_neutral_filter_identity (df : List RawRecord) :
    filtered_data (analyze_motorcycle_data df)
        (allCities (analyze_motorcycle_data df)) 1 12
        (allWeathers (analyze_motorcycle_data df)) "全部"
      = analyze_motorcycle_data df := by
  simp only [filtered_data]
  rw [if_pos (show ("全部" == "全部") = true from rfl)]
  refine List.filter_eq_self.mpr fun c hc => ?_
  have hm : 1 ≤ c.month ∧ c.month ≤ 12 := by
    obtain ⟨r, hr, hdr⟩ := List.mem_filterMap.mp hc
    obtain ⟨t, dt, hv, ht, hd, hdv, ha, h0, h99, hcex, hla, hlo, hraw,
      hhour, hmonth, hwk, hper, hband, hcause, hweather, hroad, hgender,
      hcity, hsignal, hhelmet, hminor, hmajor⟩ := deriveRecord_some_elim hdr
    rw [hmonth]
    exact dt.month_bounds hdv
  have hcity : c.city ∈ allCities (analyze_motorcycle_data df) :=
    List.mem_dedup.mpr (List.mem_map_of_mem _ hc)
  have hw : c.weather ∈ allWeathers (analyze_motorcycle_data df) :=
    List.mem_dedup.mpr (List.mem_map_of_mem _ hc)
  simp only [Bool.and_eq_true, decide_eq_true_eq]
  exact ⟨⟨List.elem_eq_true_of_mem hcity, hm.1, hm.2⟩,
    List.elem_eq_true_of_mem hw⟩

/-- C6: the Feature Pipeline is a deterministic pure function (re-running
it on the same input gives the same table), and it is idempotent: running
it on its own output — the cleaned table, which still carries every
original column — reproduces the cleaned table exactly. -/
theorem C6_pure_idempotent (df : List RawRecord) :
    analyze_motorcycle_data df = analyze_motorcycle_data df ∧
    analyze_motorcycle_data
        (List.map cleanedToRaw (analyze_motorcycle_data df))
      = analyze_motorcycle_data df :=
  ⟨rfl, analyze_idem df⟩

/-- C7: whenever the Filter/Query Layer produces an empty filtered table,
the session renders the no-data outcome: no aggregation result and no chart
is constructed. -/
theorem C7_empty_filter_no_charts
    (t : List CleanedRecord) (cities : List String) (mlo mhi : Nat)
    (weathers : List String) (p : String)
    (h : filtered_data t cities mlo mhi weathers p = []) :
    sessionView (filtered_data t cities mlo mhi weathers p)
      = RenderOutcome.noData := by
  rw [h]
  rfl

/-- C7 (witness): a concrete filter combination (a city absent from the
cleaned table) yields an empty filtered table and hence the no-data
outcome. -/
theorem C7_witness :
    sessionView (filtered_data (analyze_motorcycle_data [rHHMM])
        ["無此縣市"] 1 12 ["晴"] "全部") = RenderOutcome.noData :=
  C7_empty_filter_no_charts (analyze_motorcycle_data [rHHMM])
    ["無此縣市"] 1 12 ["晴"] "全部" (by decide)

/-- C8: for any sampler that permutes the filtered table (any draw without
replacement), the map view receives exactly min(sample size, row count)
rows — all rows when the table is small enough, exactly the sample size
otherwise — and every displayed point comes from the filtered table. -/
theorem C8_map_sample_bound
    (filtered : List CleanedRecord) (sampleSize : Nat)
    (shuffle : List CleanedRecord → List CleanedRecord)
    (h : (shuffle filtered).Perm filtered) :
    (map_data filtered sampleSize shuffle).length
        = min sampleSize filtered.length ∧
    ∀ p ∈ map_data filtered sampleSize shuffle,
      p ∈ filtered.map (fun c => (c.lat, c.lon)) := by
  unfold map_data
  by_cases hl : filtered.length > sampleSize
  · rw [if_pos hl]
    constructor
    · rw [List.length_map, List.length_take, h.length_eq]
    · intro p hp
      obtain ⟨c, hcmem, rfl⟩ := List.mem_map.mp hp
      exact List.mem_map_of_mem _ (h.mem_iff.mp (List.mem_of_mem_take hcmem))
  · rw [if_neg hl]
    constructor
    · rw [List.length_map, Nat.min_eq_right (by omega)]
    · intro p hp
      exact hp

/-- C8 (witness): the statement instantiated at the one-row cleaned table
of `rHHMM`, sample size 2, and the identity sampler. -/
theorem C8_witness :
    (map_data (analyze_motorcycle_data [rHHMM]) 2 id).length
        = min 2 (analyze_motorcycle_data [rHHMM]).length ∧
    ∀ p ∈ map_data (analyze_motorcycle_data [rHHMM]) 2 id,
      p ∈ (analyze_motorcycle_data [rHHMM]).map (fun c => (c.lat, c.lon)) :=
  C8_map_sample_bound (analyze_motorcycle_data [rHHMM]) 2 id
    (List.Perm.refl _)

/-- C9: a raw record passing the category, time and date steps whose
numeric age is exactly 0 is retained by the pipeline (0 lies inside the
accepted range [0,99]) but its age band is null — none of the seven
labels. -/
theorem C9_age_zero_retained_no_band :
    (analyze_motorcycle_data [rAge0]).map (fun c => (c.age, c.ageBand))
      = [((0 : Int), (none : Option String))] ∧
    (none : Option String) ∉ ageLabels.map some := by
  decide

/-- C10: a raw record whose party-age field is missing or non-numeric is
dropped by the pipeline, and every cleaned record's age is a number with
0 ≤ age ≤ 99. -/
theorem C10_age_range :
    (∀ r : RawRecord, r.partyAge = none → deriveRecord r = none) ∧
    (∀ (r : RawRecord) (c : CleanedRecord), deriveRecord r = some c →
      r.partyAge = some c.age ∧ 0 ≤ c.age ∧ c.age ≤ 99) := by
  constructor
  · exact fun r h => deriveRecord_none_of_age_none h
  · intro r c h
    obtain ⟨t, dt, hv, ht, hd, hdv, ha, h0, h99, hcex, hla, hlo, hraw,
      hhour, hmonth, hwk, hper, hband, hcause, hweather, hroad, hgender,
      hcity, hsignal, hhelmet, hminor, hmajor⟩ := deriveRecord_some_elim h
    exact ⟨ha, h0, h99⟩

/-- C10 (witness): the statement instantiated at a record without a numeric
age (dropped) and at the concrete record `rHHMM` (age 30 within [0,99]). -/
theorem C10_witness :
    deriveRecord rNoAge = none ∧
    (rHHMM.partyAge = some cHHMM.age ∧ 0 ≤ cHHMM.age ∧ cHHMM.age ≤ 99) :=
  ⟨C10_age_range.1 rNoAge rfl,
    C10_age_range.2 rHHMM cHHMM (by decide)⟩
